import Mathlib

/-!
Verification of the ADRIS dashboard backend core
(`dashboard/dashboard_server.py`): a shallow embedding in Lean 4 of the
background updater loop, the freshness classifier, the overlay renderer,
the deduplicating aggregator, the durable CSV log and the read-only query
endpoints, together with theorems settling the specification claims.

Modelling conventions:
* Python byte strings are `List Nat`; JSON documents are the inductive
  `JVal`; Python floats and JSON numbers are exact rationals `ℚ`.
* All arithmetic that a concrete evaluation must reduce through is
  implemented directly on the numerator/denominator of `ℚ` (the batteries
  `Rat.add`/`mul`/`sub` are irreducible for the kernel), which is exact.
* Wall-clock instants are integer microsecond counts; the staleness test
  `age_seconds > 2.0` is the exact equivalent integer comparison on
  microseconds.
* Pillow (image decode / draw / encode) is an external collaborator; it
  is modelled by a small pure image type: decoding succeeds exactly on
  byte strings that start with the JPEG start-of-image marker, and
  drawing accumulates the operations the source performs.  The frame
  dimensions come from the external configuration file; the source's own
  comment documents 640x640 and that value is used here.
* The overlay renderer has two models: the total `overlay_detections`
  (the executions in which the source returns normally, used by the cycle
  embedding) and `overlay_detections_checked`, which adds the renderer's
  one unguarded error path — `int(conf_f * 100)` at source line 227
  raises an uncaught OverflowError when the double product overflows —
  exhibited by claim C4.
-/

namespace Adris

set_option maxRecDepth 8192
set_option exponentiation.threshold 1100

/-! ## Rational helpers (kernel-computable, operating on num/den) -/

/-- Floor of a rational computed on its normalised numerator/denominator. -/
def ratFloor (q : ℚ) : Int := Int.fdiv q.num (q.den : Int)

/-- Round-half-to-even of the fraction `n / d` (`d > 0`): the semantics of
Python's `round` builtin on an exact value. -/
def roundHalfEvenFrac (n d : Int) : Int :=
  let f := Int.fdiv n d
  let r := n - f * d
  if 2 * r < d then f
  else if d < 2 * r then f + 1
  else if f % 2 = 0 then f else f + 1

/-- Python `round(q)` (banker's rounding) on an exact rational. -/
def pyRound (q : ℚ) : Int := roundHalfEvenFrac q.num (q.den : Int)

/-- Python `round(q, 2)` as used by the stats endpoint. -/
def pyRound2 (q : ℚ) : ℚ := mkRat (roundHalfEvenFrac (q.num * 100) (q.den : Int)) 100

/-- Python `int(q)` truncates toward zero. -/
def pyTrunc (q : ℚ) : Int := Int.tdiv q.num (q.den : Int)

/-- Exact value of `q * 100` truncated toward zero, computed without
irreducible `Rat` multiplication: the value of the overlay label's
`int(conf_f * 100)` when the double product is finite.  The overflowing
case — where CPython raises instead of producing a value — is modelled by
`labelInt?` and the checked renderer (claim C4). -/
def truncTimes100 (q : ℚ) : Int := Int.tdiv (q.num * 100) (q.den : Int)

/-- Whether an exact real magnitude lies beyond the finite IEEE-754
double range: round-to-nearest-even sends a real to plus or minus
infinity exactly when its magnitude is at least
`(2^54 - 1) * 2^970` (the largest finite double `(2^53 - 1) * 2^971`
plus half an ulp). -/
def overflowsDouble (q : ℚ) : Bool :=
  decide ((2 ^ 54 - 1) * 2 ^ 970 * q.den ≤ q.num.natAbs)

/-! ## Python `float(...)` coercion on JSON values -/

/-- Decimal value of a digit list (most significant first). -/
def digitsVal (cs : List Char) : Nat :=
  cs.foldl (fun a c => 10 * a + (c.toNat - 48)) 0

/-- Split a character list on a separator character. -/
def splitOnChar (sep : Char) : List Char → List (List Char)
  | [] => [[]]
  | c :: rest =>
    let r := splitOnChar sep rest
    if c = sep then [] :: r
    else
      match r with
      | [] => [[c]]
      | g :: gs => (c :: g) :: gs

/-- Strip leading and trailing whitespace, as Python `float` does on strings. -/
def trimWS (cs : List Char) : List Char :=
  ((cs.dropWhile (·.isWhitespace)).reverse.dropWhile (·.isWhitespace)).reverse

/-- Optional leading sign; returns (isNegative, rest). -/
def takeSign : List Char → Bool × List Char
  | '-' :: r => (true, r)
  | '+' :: r => (false, r)
  | cs => (false, cs)

/-- CPython's digit-group underscores: a group is valid exactly when
every underscore stands between two digits (`1_000` is `1000`;
`_1`, `1_`, `1__0` and `1_.5` raise); returns the characters with the
underscores removed. -/
def stripGroup? (cs : List Char) : Option (List Char) :=
  if cs.head? = some '_' ∨ cs.getLast? = some '_' then none
  else if (cs.zip (cs.drop 1)).all
      (fun pr => (!(pr.1 == '_') || pr.2.isDigit) && (!(pr.2 == '_') || pr.1.isDigit)) then
    some (cs.filter (· ≠ '_'))
  else none

/-- Parse the mantissa `digits[.digits]` of a Python float literal
(underscore groups allowed) as a non-negative scaled pair
(numerator, power-of-ten denominator). -/
def parseMantissa? (cs : List Char) : Option (Nat × Nat) :=
  match splitOnChar ('.') cs with
  | [i0] =>
    match stripGroup? i0 with
    | none => none
    | some i =>
      if i ≠ [] ∧ i.all (·.isDigit) then some (digitsVal i, 1) else none
  | [i0, f0] =>
    match stripGroup? i0, stripGroup? f0 with
    | some i, some f =>
      if (i ≠ [] ∨ f ≠ []) ∧ i.all (·.isDigit) ∧ f.all (·.isDigit) then
        some (digitsVal i * 10 ^ f.length + digitsVal f, 10 ^ f.length)
      else none
    | _, _ => none
  | _ => none

/-- Python `float(s)` on a string: optional whitespace and sign, decimal
mantissa with digit-group underscores, optional exponent.  `none` where
CPython `float(...)` raises `ValueError`, and also where the literal
denotes a non-finite double — `inf`/`infinity`/`nan` and magnitudes past
the double range such as `1e400` — which this exact-rational model cannot
carry.  (A coercion yielding a non-finite value is observable in the
source only through the unguarded label computation at line 227, the
error path exhibited by claim C4's checked renderer.) -/
def pyFloatOfString? (s : String) : Option ℚ :=
  let cs := (trimWS s.toList).map Char.toLower
  let (neg, cs) := takeSign cs
  let sgn : Int := if neg then -1 else 1
  match splitOnChar ('e') cs with
  | [m] =>
    match parseMantissa? m with
    | none => none
    | some (n, d) =>
      let q := mkRat (sgn * n) d
      if overflowsDouble q then none else some q
  | [m, e] =>
    match parseMantissa? m with
    | none => none
    | some (n, d) =>
      let (eneg, ed0) := takeSign e
      match stripGroup? ed0 with
      | none => none
      | some ed =>
        if ed ≠ [] ∧ ed.all (·.isDigit) then
          let ex := digitsVal ed
          let q := if eneg then mkRat (sgn * n) (d * 10 ^ ex) else mkRat (sgn * n * 10 ^ ex) d
          if overflowsDouble q then none else some q
        else none
  | _ => none

/-! ## JSON values (the result of `json.load`) -/

/-- JSON documents as decoded by Python's `json` module. -/
inductive JVal where
  | jnull
  | jbool (b : Bool)
  | jnum (q : ℚ)
  | jstr (s : String)
  | jarr (elems : List JVal)
  | jobj (fields : List (String × JVal))

/-- Dictionary member lookup, `d.get(key)`: `none` on a non-dict or a
missing key. -/
def jGet : JVal → String → Option JVal
  | .jobj fields, key => fields.lookup key
  | _, _ => none

/-- Dictionary lookup with a default, `d.get(key, dflt)`. -/
def jGetD (v : JVal) (key : String) (dflt : JVal) : JVal :=
  (jGet v key).getD dflt

/-- Python `isinstance(v, dict)`. -/
def JVal.isObj : JVal → Bool
  | .jobj _ => true
  | _ => false

/-- Python `float(v)` on a JSON value: numbers are exact, booleans coerce
to 0/1, numeric strings parse; everything else raises (`none`). -/
def pyFloat? : JVal → Option ℚ
  | .jnum q => some q
  | .jbool b => some (if b then 1 else 0)
  | .jstr s => pyFloatOfString? s
  | _ => none

/-! ## ISO-8601 timestamps (`datetime.fromisoformat`) -/

/-- Result of a successful `datetime.fromisoformat` call: a civil
date-time with microseconds and an optional UTC offset in minutes
(`none` models a naive datetime). -/
structure PyDateTime where
  year : Nat
  month : Nat
  day : Nat
  hour : Nat
  minute : Nat
  second : Nat
  usec : Nat
  tzOffsetMinutes : Option Int
deriving DecidableEq

/-- Gregorian leap-year rule. -/
def isLeapYear (y : Nat) : Bool :=
  (y % 4 = 0 && y % 100 ≠ 0) || y % 400 = 0

/-- Number of days in a month (CPython validates the day against it). -/
def daysInMonth (y m : Nat) : Nat :=
  if m = 2 then (if isLeapYear y then 29 else 28)
  else if m = 4 ∨ m = 6 ∨ m = 9 ∨ m = 11 then 30 else 31

/-- Parse a trailing UTC offset `±HH:MM` into minutes. -/
def parseOffset? : List Char → Option Int
  | [sgn, h1, h2, ':', m1, m2] =>
    if (sgn = '+' ∨ sgn = '-') ∧ [h1, h2, m1, m2].all (·.isDigit) then
      let hh := digitsVal [h1, h2]
      let mm := digitsVal [m1, m2]
      if hh < 24 ∧ mm < 60 then
        let total : Int := hh * 60 + mm
        some (if sgn = '-' then -total else total)
      else none
    else none
  | _ => none

/-- Parse an optional fractional-seconds field (`.fff` or `.ffffff`),
returning microseconds and the remaining characters. -/
def parseFrac? : List Char → Option (Nat × List Char)
  | '.' :: rest =>
    let ds := rest.takeWhile (·.isDigit)
    let rem := rest.drop ds.length
    if ds.length = 3 then some (digitsVal ds * 1000, rem)
    else if ds.length = 6 then some (digitsVal ds, rem)
    else none
  | cs => some (0, cs)

/-- Parse the time-of-day part `HH:MM:SS[.ffffff][±HH:MM]`. -/
def parseTime? (cs : List Char) : Option (Nat × Nat × Nat × Nat × Option Int) :=
  match cs with
  | h1 :: h2 :: ':' :: m1 :: m2 :: ':' :: s1 :: s2 :: rest =>
    if [h1, h2, m1, m2, s1, s2].all (·.isDigit) then
      let hh := digitsVal [h1, h2]
      let mm := digitsVal [m1, m2]
      let ss := digitsVal [s1, s2]
      if hh < 24 ∧ mm < 60 ∧ ss < 60 then
        match parseFrac? rest with
        | none => none
        | some (us, rem) =>
          match rem with
          | [] => some (hh, mm, ss, us, none)
          | _ => (parseOffset? rem).map (fun off => (hh, mm, ss, us, some off))
      else none
    else none
  | _ => none

/-- The source's `_parse_iso_datetime`: `datetime.fromisoformat` when it
succeeds, `none` when CPython raises.  Accepts `YYYY-MM-DD` optionally
followed by a one-character separator and `HH:MM:SS[.ffffff][±HH:MM]`,
with calendar validation, exactly the common core of `fromisoformat`. -/
def parseIso? (s : String) : Option PyDateTime :=
  match s.toList with
  | y1 :: y2 :: y3 :: y4 :: '-' :: m1 :: m2 :: '-' :: d1 :: d2 :: rest =>
    if [y1, y2, y3, y4, m1, m2, d1, d2].all (·.isDigit) then
      let y := digitsVal [y1, y2, y3, y4]
      let mo := digitsVal [m1, m2]
      let d := digitsVal [d1, d2]
      if 1 ≤ mo ∧ mo ≤ 12 ∧ 1 ≤ d ∧ d ≤ daysInMonth y mo then
        match rest with
        | [] => some ⟨y, mo, d, 0, 0, 0, 0, none⟩
        | _sep :: timecs =>
          (parseTime? timecs).map (fun (hh, mm, ss, us, off) => ⟨y, mo, d, hh, mm, ss, us, off⟩)
      else none
    else none
  | _ => none

/-- Days from the Unix epoch to a civil date (Howard Hinnant's
days-from-civil algorithm). -/
def daysFromCivil (y m d : Nat) : Int :=
  let y1 : Int := if m ≤ 2 then (y : Int) - 1 else y
  let era : Int := Int.fdiv y1 400
  let yoe : Int := y1 - era * 400
  let mp : Nat := (m + 9) % 12
  let doy : Int := (153 * mp + 2) / 5 + (d : Int) - 1
  let doe : Int := yoe * 365 + yoe / 4 - yoe / 100 + doy
  era * 146097 + doe - 719468

/-- Instant of a parsed datetime as microseconds from the epoch of its
own reference frame (UTC when it is offset-aware, the local wall clock
when naive) — `datetime.now(dt.tzinfo) - dt` is then an exact integer
difference of such instants. -/
def epochMicros (dt : PyDateTime) : Int :=
  ((daysFromCivil dt.year dt.month dt.day) * 86400
      + (dt.hour : Int) * 3600 + (dt.minute : Int) * 60 + (dt.second : Int)) * 1000000
    + (dt.usec : Int) - (dt.tzOffsetMinutes.getD 0) * 60 * 1000000

/-- Two-digit zero padding for `strftime`. -/
def pad2 (n : Nat) : String :=
  if n < 10 then "0" ++ Nat.repr n else Nat.repr n

/-- The source's `_time_hhmmss`: `HH:MM:SS` from the payload timestamp,
falling back to the current wall-clock rendering (a cycle input) when the
timestamp is empty or unparseable. -/
def time_hhmmss (fallbackNow ts : String) : String :=
  if ts = "" then fallbackNow
  else
    match parseIso? ts with
    | some dt => pad2 dt.hour ++ ":" ++ pad2 dt.minute ++ ":" ++ pad2 dt.second
    | none => fallbackNow

/-- The source's `_payload_is_stale`.  `nowUs` is the current wall clock
(`datetime.now(dt.tzinfo)`) in epoch microseconds; the source's
`age > STALE_JSON_S` with `STALE_JSON_S = 2.0` seconds is the exact
integer comparison on microseconds. -/
def payload_is_stale (nowUs : Int) (p : JVal) : Bool :=
  match jGet p ("timestamp") with
  | some (.jstr ts) =>
    if ts = "" then true
    else
      match parseIso? ts with
      | none => false
      | some dt => decide (nowUs - epochMicros dt > 2000000)
  | _ => true

/-! ## Overlay renderer (`_overlay_detections`), with a pure model of Pillow -/

/-- Frame width from the external configuration; the source documents the
shipped frames as 640x640 pixels. -/
def FRAME_WIDTH : Nat := 640

/-- Frame height from the external configuration. -/
def FRAME_HEIGHT : Nat := 640

/-- One Pillow drawing call performed by the overlay step. -/
inductive DrawOp where
  | rect (x0 y0 x1 y1 : Int) (filled : Bool)
  | text (x y : Int) (label : String)
deriving DecidableEq

/-- Pure model of a decoded Pillow image: its dimensions and the drawing
operations applied to it, in order. -/
structure PILImage where
  width : Nat
  height : Nat
  ops : List DrawOp
deriving DecidableEq

/-- Model of `Image.open(io.BytesIO(b)).convert("RGB")`: decoding succeeds
exactly on well-formed JPEG data, abstracted as the byte string starting
with the JPEG start-of-image marker `FF D8`. -/
def pil_open? (bs : List Nat) : Option PILImage :=
  if bs.take 2 = [255, 216] then some ⟨FRAME_WIDTH, FRAME_HEIGHT, []⟩ else none

/-- Model of `img.save(out, format="JPEG")`: a total encoding that is
never empty. -/
def pil_encode (img : PILImage) : List Nat :=
  [255, 216] ++ List.replicate img.ops.length 0 ++ [255, 217]

/-- Model of the text metrics of `draw.textbbox` under the loaded font:
width 8 pixels per character, height 16. -/
def textWidth (label : String) : Int := 8 * (label.length : Int)

/-- Model of `_generate_no_signal_frame()`: the placeholder JPEG drawn by
Pillow; an opaque, non-empty byte value. -/
def no_signal_frame : List Nat := [255, 216, 78, 79, 255, 217]

/-- Python `det.get("class") != "person"`, negated: true exactly when the
member equals the string `"person"`. -/
def classIsPerson (det : JVal) : Bool :=
  match jGet det ("class") with
  | some (.jstr c) => c = "person"
  | _ => false

/-- The bbox validation and coercion shared by the overlay and the
aggregator: `bbox` must be a list of exactly 4 components and
`[int(round(float(v))) for v in bbox]` must not raise; any failure skips
the detection. -/
def coerce_bbox? : Option JVal → Option (Int × Int × Int × Int)
  | some (.jarr [a, b, c, d]) =>
    match pyFloat? a, pyFloat? b, pyFloat? c, pyFloat? d with
    | some qa, some qb, some qc, some qd =>
      some (pyRound qa, pyRound qb, pyRound qc, pyRound qd)
    | _, _, _, _ => none
  | _ => none

/-- Python `payload.get("detections", [])` followed by the
`isinstance(detections, list)` check that replaces a non-list by `[]`. -/
def detections_list (p : JVal) : List JVal :=
  match jGet p ("detections") with
  | some (.jarr l) => l
  | _ => []

/-- Loop body of `_overlay_detections`: skip non-dicts, non-person
classes and bad bboxes; otherwise draw the rectangle and the label. -/
def overlay_det_step (img : PILImage) (det : JVal) : PILImage :=
  if det.isObj = false then img
  else if classIsPerson det = false then img
  else
    match coerce_bbox? (jGet det ("bbox")) with
    | none => img
    | some (x, y, w, h) =>
      let conf_f := (pyFloat? (jGetD det ("confidence") (.jnum 0))).getD 0
      let x2 := x + w
      let y2 := y + h
      let img1 := { img with ops := img.ops ++ [DrawOp.rect x y x2 y2 false] }
      let label := "person " ++ toString (truncTimes100 conf_f) ++ "%"
      let tw := textWidth label
      let th : Int := 16
      let pad : Int := 4
      let ly0 := y - (th + 2 * pad)
      let ly := if ly0 < 0 then y + 2 else ly0
      let lx := max 0 (min x ((FRAME_WIDTH : Int) - (tw + 2 * pad)))
      { img1 with ops := img1.ops ++
          [DrawOp.rect lx ly (lx + tw + 2 * pad) (ly + th + 2 * pad) true,
           DrawOp.text (lx + pad) (ly + pad) label] }

/-- The drawing pass of `_overlay_detections` over the payload's
detection list. -/
def annotate (img : PILImage) (p : JVal) : PILImage :=
  (detections_list p).foldl overlay_det_step img

/-- The source's `_overlay_detections` on its non-raising executions:
returns the input bytes unchanged when decoding fails, otherwise the
re-encoded annotated image.  This total model is used by the cycle
embedding; the source's one unguarded error path (the label overflow at
line 227) is added by `overlay_detections_checked` below. -/
def overlay_detections (jpeg_bytes : List Nat) (payload : JVal) : List Nat :=
  match pil_open? jpeg_bytes with
  | none => jpeg_bytes
  | some img => pil_encode (annotate img payload)

/-- The value/error semantics of `int(conf_f * 100)` at source line 227:
the double product `conf_f * 100` is non-finite exactly when the exact
product lies past the double range, and `int()` of a non-finite double
raises an uncaught OverflowError — modelled as `none`.  (`int(nan)`
likewise raises ValueError, but a NaN confidence is not representable in
the exact model; the overflow path alone already exhibits the escape.)
In the finite case Python truncates toward zero. -/
def labelInt? (conf : ℚ) : Option Int :=
  if overflowsDouble (mkRat (conf.num * 100) conf.den) then none
  else some (truncTimes100 conf)

/-- The loop body of `_overlay_detections` with its one unguarded error
path: the skips (non-dict, non-person class, bad bbox) and the
confidence default are exception-safe as in `overlay_det_step`, but the
label computation at source line 227 sits in no try/except — when
`int(conf_f * 100)` raises, the exception escapes (`none`); otherwise
the step draws exactly as the total model does. -/
def overlay_det_step_checked (img : PILImage) (det : JVal) : Option PILImage :=
  if det.isObj = false then some img
  else if classIsPerson det = false then some img
  else
    match coerce_bbox? (jGet det ("bbox")) with
    | none => some img
    | some _ =>
      match labelInt? ((pyFloat? (jGetD det ("confidence") (.jnum 0))).getD 0) with
      | none => none
      | some _ => some (overlay_det_step img det)

/-- The source's `_overlay_detections` with its error path: `none` models
an uncaught exception escaping to the caller from the per-detection
label computation. -/
def overlay_detections_checked (jpeg_bytes : List Nat) (payload : JVal) :
    Option (List Nat) :=
  match pil_open? jpeg_bytes with
  | none => some jpeg_bytes
  | some img =>
    ((detections_list payload).foldlM overlay_det_step_checked img).map pil_encode

/-! ## Cached state, bounded buffers, the aggregator and the update cycle -/

/-- One entry of `recent_logs` (the dict built at source lines 390–395). -/
structure LogEntry where
  time : String
  cls : String
  confidence : ℚ
  inference_time : ℚ
deriving DecidableEq

/-- One entry of `performance_history` (`{"cpu": ..., "memory": ...}`). -/
structure PerfEntry where
  cpu : ℚ
  memory : ℚ
deriving DecidableEq

/-- One data line appended to the durable CSV log, with the exact fields
of the f-string at source line 398. -/
structure CsvRow where
  timestamp : String
  cls : String
  confidence : ℚ
  x : Int
  y : Int
  w : Int
  h : Int
  latency_ms : ℚ
  fps : ℚ
  cpu_percent : ℚ
  memory_percent : ℚ
deriving DecidableEq

/-- The shared cached state of the dashboard process (the module-level
variables guarded by `state_lock`), plus the durable CSV data rows. -/
structure DashState where
  cached_annotated_jpeg : List Nat
  cached_last_frame_ok : Bool
  recent_logs : List LogEntry
  performance_history : List PerfEntry
  latency_window : List ℚ
  total_detections : Nat
  last_fps : ℚ
  last_payload_timestamp_processed : Option String
  csv_log : List CsvRow
deriving DecidableEq

/-- `deque(maxlen := cap).append(x)`: push at the right, evicting the
oldest element on the left when the capacity is reached. -/
def dequeAppend {α : Type} (cap : Nat) (xs : List α) (x : α) : List α :=
  (xs ++ [x]).drop (xs.length + 1 - cap)

/-- `deque(maxlen := cap).appendleft(x)`: push at the front, evicting the
oldest element at the back when the capacity is reached. -/
def dequeAppendLeft {α : Type} (cap : Nat) (x : α) (xs : List α) : List α :=
  (x :: xs).take cap

/-- Per-detection step of the aggregator loop (source lines 367–399):
`none` when the detection is skipped, otherwise the log entry and the
CSV row it contributes.  A failing `float(confidence)` defaults the
field to `0.0` without skipping the detection. -/
def detection_row? (ts time_str : String) (lat fps cpu mem : ℚ) (det : JVal) :
    Option (LogEntry × CsvRow) :=
  if det.isObj = false then none
  else if classIsPerson det = false then none
  else
    match coerce_bbox? (jGet det ("bbox")) with
    | none => none
    | some (x, y, w, h) =>
      let conf_f := (pyFloat? (jGetD det ("confidence") (.jnum 0))).getD 0
      some (⟨time_str, "person", conf_f, lat⟩,
            ⟨ts, "person", conf_f, x, y, w, h, lat, fps, cpu, mem⟩)

/-- The deduplicating aggregator body (source lines 315–418), entered
after the watermark check, with all payload fields already coerced:
advances the watermark, pushes the rolling stats, and — when at least one
detection qualifies — bumps the total, prepends the log entries and
appends the CSV rows. -/
def aggregate_core (ts time_str : String) (fps lat cpu mem : ℚ) (dets : List JVal)
    (s : DashState) : DashState :=
  let s1 := { s with
    last_payload_timestamp_processed := some ts,
    last_fps := fps,
    latency_window := dequeAppend 60 s.latency_window lat,
    performance_history := dequeAppend 180 s.performance_history ⟨cpu, mem⟩ }
  let results := dets.filterMap (detection_row? ts time_str lat fps cpu mem)
  if results.length > 0 then
    { s1 with
      total_detections := s1.total_detections + results.length,
      recent_logs := (results.map Prod.fst).foldl
        (fun logs e => dequeAppendLeft 200 e logs) s1.recent_logs,
      csv_log := s1.csv_log ++ results.map Prod.snd }
  else s1

/-- Field extraction feeding the aggregator: `fps`, `latency_ms` and the
`system` sub-dict coerce with `float(...)`, defaulting to `0.0` on any
failure as the source's try/except blocks do. -/
def aggregate_payload (fallbackTime : String) (p : JVal) (ts : String)
    (s : DashState) : DashState :=
  let fps := (pyFloat? (jGetD p ("fps") (.jnum 0))).getD 0
  let lat := (pyFloat? (jGetD p ("latency_ms") (.jnum 0))).getD 0
  let sysinfo := jGetD p ("system") (.jobj [])
  let cpu := match jGet sysinfo ("cpu_percent") with
    | none => 0
    | some v => (pyFloat? v).getD 0
  let mem := match jGet sysinfo ("memory_percent") with
    | none => 0
    | some v => (pyFloat? v).getD 0
  let time_str := time_hhmmss fallbackTime ts
  aggregate_core ts time_str fps lat cpu mem (detections_list p) s

/-- Everything one iteration of the updater loop reads from the outside
world: the wall clock, the wall-clock fallback rendering used by
`_time_hhmmss`, and the two shared resources (`none` models a failed
read). -/
structure CycleInput where
  nowUs : Int
  fallbackTime : String
  frame : Option (List Nat)
  payload : Option JVal

/-- One iteration of `_background_updater`'s `while True` loop (source
lines 283–420): the per-cycle cache update policy followed, on fresh
payloads with a new timestamp, by the aggregator.  The renderer here is
the total model: an execution in which the overlay raises (claim C4's
checked model) kills the updater thread instead of completing a cycle. -/
def background_cycle (inp : CycleInput) (s : DashState) : DashState :=
  match inp.frame with
  | none =>
    { s with cached_annotated_jpeg := no_signal_frame, cached_last_frame_ok := false }
  | some frame_bytes =>
    match inp.payload with
    | none =>
      { s with cached_annotated_jpeg := frame_bytes, cached_last_frame_ok := true }
    | some payload =>
      if payload.isObj = false ∨ payload_is_stale inp.nowUs payload = true then
        { s with cached_annotated_jpeg := frame_bytes, cached_last_frame_ok := true }
      else
        let s1 := { s with
          cached_annotated_jpeg := overlay_detections frame_bytes payload,
          cached_last_frame_ok := true }
        match jGet payload ("timestamp") with
        | some (.jstr ts) =>
          if ts ≠ "" ∧ s1.last_payload_timestamp_processed ≠ some ts then
            aggregate_payload inp.fallbackTime payload ts s1
          else s1
        | _ => s1

/-- The module-level initial values of the cached state (source lines
79–89): note `cached_annotated_jpeg` starts as the EMPTY byte string. -/
def module_state0 : DashState :=
  { cached_annotated_jpeg := []
    cached_last_frame_ok := false
    recent_logs := []
    performance_history := []
    latency_window := []
    total_detections := 0
    last_fps := 0
    last_payload_timestamp_processed := none
    csv_log := [] }

/-- The state after the updater's initialisation block (source lines
279–281), which installs the placeholder frame before the loop starts. -/
def state0 : DashState :=
  { module_state0 with
    cached_annotated_jpeg := no_signal_frame
    cached_last_frame_ok := false }

/-- Run the updater loop over a finite list of cycle inputs, starting at
the initialised state. -/
def run (inps : List CycleInput) : DashState :=
  inps.foldl (fun s i => background_cycle i s) state0

/-! ## Read-only consumers -/

/-- The frame served by one send of the `/video_feed` generator:
`cached_annotated_jpeg or _generate_no_signal_frame()` — Python's `or`
substitutes the placeholder exactly when the cached bytes are empty. -/
def video_feed_frame (s : DashState) : List Nat :=
  if s.cached_annotated_jpeg = [] then no_signal_frame else s.cached_annotated_jpeg

/-- The JSON body of `GET /api/stats`. -/
structure StatsResponse where
  fps : ℚ
  avg_inference_time : ℚ
  detections_count : Nat
deriving DecidableEq

/-- The source's `api_stats` handler: the mean of the latency window (or
`0.0` when it is empty) rounded to two decimals. -/
def api_stats (s : DashState) : StatsResponse :=
  let avg_latency : ℚ :=
    if s.latency_window = [] then 0
    else s.latency_window.sum / (s.latency_window.length : ℚ)
  { fps := pyRound2 s.last_fps
    avg_inference_time := pyRound2 avg_latency
    detections_count := s.total_detections }

/-- The source's `api_logs` handler. -/
def api_logs (s : DashState) : List LogEntry := s.recent_logs

/-- The source's `api_detection_stats` handler: a single-key map
`{"person": total_detections}`. -/
def api_detection_stats (s : DashState) : List (String × Nat) :=
  [("person", s.total_detections)]

/-- The source's `api_performance_history` handler. -/
def api_performance_history (s : DashState) : List PerfEntry :=
  s.performance_history

/-! ## Durable CSV store -/

/-- The header row written by `_ensure_csv_header` (source line 101). -/
def csv_header : String :=
  "timestamp,class,confidence,x,y,width,height,latency_ms,fps,cpu_percent,memory_percent"

/-- The source's `_ensure_csv_header` acting on the durable store's
content (`none` = file absent): writes the header exactly when the file
is absent or has size zero, otherwise leaves the content unchanged. -/
def ensure_csv_header : Option String → String
  | none => csv_header ++ "\n"
  | some content => if content = "" then csv_header ++ "\n" else content

/-- Digits of the fractional part `r / d` by long division (fuel-bounded;
exact whenever the decimal expansion terminates within the fuel). -/
def fracDigitsAux : Nat → Nat → Nat → List Char
  | 0, _, _ => []
  | _, 0, _ => []
  | fuel + 1, r, d =>
    let r10 := r * 10
    Char.ofNat (48 + r10 / d) :: fracDigitsAux fuel (r10 % d) d

/-- Rendering of a Python float with a terminating decimal expansion, as
`str`/f-strings produce it (`42.0`, `0.87`, `-3.5`). -/
def pyFloatRepr (q : ℚ) : String :=
  let sign := if q.num < 0 then "-" else ""
  let na := q.num.natAbs
  let d := q.den
  let fr := fracDigitsAux 60 (na % d) d
  sign ++ Nat.repr (na / d) ++ "." ++ (if fr = [] then "0" else String.mk fr)

/-- The durable-log line built by the f-string at source line 398
(without the trailing newline). -/
def csvRowToString (r : CsvRow) : String :=
  r.timestamp ++ "," ++ r.cls ++ "," ++ pyFloatRepr r.confidence ++ ","
    ++ toString r.x ++ "," ++ toString r.y ++ "," ++ toString r.w ++ ","
    ++ toString r.h ++ "," ++ pyFloatRepr r.latency_ms ++ ","
    ++ pyFloatRepr r.fps ++ "," ++ pyFloatRepr r.cpu_percent ++ ","
    ++ pyFloatRepr r.memory_percent

/-! ## Concrete inputs used by the scenario claims -/

/-- A minimal well-formed JPEG byte string for the frame resource. -/
def jpeg0 : List Nat := [255, 216, 255, 217]

/-- The payload of the specification's scenario (§8). -/
def payload6 : JVal :=
  .jobj
    [("timestamp", .jstr "2024-01-01T10:00:00+00:00"),
     ("detections", .jarr
        [.jobj
          [("class", .jstr "person"),
           ("confidence", .jnum (mkRat 87 100)),
           ("bbox", .jarr [.jnum 10, .jnum 20, .jnum 30, .jnum 40])]]),
     ("latency_ms", .jnum 42),
     ("fps", .jnum (mkRat 238 10)),
     ("system", .jobj [("cpu_percent", .jnum 12), ("memory_percent", .jnum 55)])]

/-- Wall clock of the scenario cycle: exactly the payload's instant, so
the payload is 0 seconds old and hence fresh. -/
def now6 : Int := 1704103200000000

/-- The scenario cycle input: frame readable, scenario payload present. -/
def inp6 : CycleInput := ⟨now6, "12:34:56", some jpeg0, some payload6⟩

/-- A fresh payload with timestamp `"tsA"` and one person detection.  Its
timestamp does not parse, so the freshness classifier never considers it
stale, making the cycles below independent of the wall clock. -/
def payloadA : JVal :=
  .jobj
    [("timestamp", .jstr "tsA"),
     ("latency_ms", .jnum 5),
     ("detections", .jarr
        [.jobj
          [("class", .jstr "person"),
           ("confidence", .jnum (mkRat 9 10)),
           ("bbox", .jarr [.jnum 1, .jnum 2, .jnum 3, .jnum 4])]])]

/-- A fresh payload with timestamp `"tsB"` and no detections. -/
def payloadB : JVal :=
  .jobj
    [("timestamp", .jstr "tsB"),
     ("latency_ms", .jnum 7),
     ("detections", .jarr [])]

/-- Cycle input carrying `payloadA`. -/
def inpA : CycleInput := ⟨0, "09:00:00", some jpeg0, some payloadA⟩

/-- Cycle input carrying `payloadB`. -/
def inpB : CycleInput := ⟨0, "09:00:01", some jpeg0, some payloadB⟩

/-- A person detection with a valid bbox whose confidence is the finite,
exactly double-representable value `2^1020` (about `1.12e307`, e.g. the
JSON number with that exact decimal expansion, or any decimal like
`1.2e307` nearby): `float(...)` succeeds on it, yet `conf_f * 100`
overflows the double range. -/
def detInf : JVal :=
  .jobj
    [("class", .jstr "person"),
     ("confidence", .jnum (mkRat ((2 ^ 1020 : Nat) : Int) 1)),
     ("bbox", .jarr [.jnum 10, .jnum 20, .jnum 30, .jnum 40])]

/-- A payload dictionary carrying `detInf`. -/
def payloadInf : JVal :=
  .jobj [("timestamp", .jstr "tsC"), ("detections", .jarr [detInf])]


/-- The detection skipped by claim C8's bad-bbox case: person class but a
3-component bbox. -/
def badDet : JVal :=
  .jobj
    [("class", .jstr "person"),
     ("bbox", .jarr [.jnum 1, .jnum 2, .jnum 3])]

/-- A qualifying person detection used as a sibling in claim C8. -/
def goodDetW : JVal :=
  .jobj
    [("class", .jstr "person"),
     ("confidence", .jnum (mkRat 1 2)),
     ("bbox", .jarr [.jnum 5, .jnum 6, .jnum 7, .jnum 8])]

/-- A person detection whose confidence (`null`) fails `float(...)`. -/
def confDet : JVal :=
  .jobj
    [("class", .jstr "person"),
     ("confidence", .jnull),
     ("bbox", .jarr [.jnum 1, .jnum 2, .jnum 3, .jnum 4])]

/-- A well-formed payload whose non-empty timestamp string does not parse
as an ISO-8601 datetime. -/
def pUnparseable : JVal := .jobj [("timestamp", .jstr "not-a-date")]

/-- The mean of the latency window as the specification words it:
"arithmetic mean of latency_window (0.0 if empty)". -/
def spec_arith_mean (l : List ℚ) : ℚ :=
  if l = [] then 0 else l.sum / (l.length : ℚ)

/-! ## Helper lemmas -/

/-- Re-writing the two frame fields with their current values is the
identity on the cached state. -/
theorem set_frame_eq (s : DashState) (c : List Nat) (b : Bool)
    (hc : s.cached_annotated_jpeg = c) (hb : s.cached_last_frame_ok = b) :
    { s with cached_annotated_jpeg := c, cached_last_frame_ok := b } = s := by
  cases s with
  | mk f1 f2 f3 f4 f5 f6 f7 f8 f9 =>
    have hc' : f1 = c := hc
    have hb' : f2 = b := hb
    subst hc'
    subst hb'
    rfl

/-- The aggregator never touches the cached frame. -/
theorem aggregate_core_cached (ts t : String) (fps lat cpu mem : ℚ) (dets : List JVal)
    (s : DashState) :
    (aggregate_core ts t fps lat cpu mem dets s).cached_annotated_jpeg
      = s.cached_annotated_jpeg := by
  simp only [aggregate_core]
  split <;> rfl

/-- The aggregator never touches the frame-validity flag. -/
theorem aggregate_core_ok (ts t : String) (fps lat cpu mem : ℚ) (dets : List JVal)
    (s : DashState) :
    (aggregate_core ts t fps lat cpu mem dets s).cached_last_frame_ok
      = s.cached_last_frame_ok := by
  simp only [aggregate_core]
  split <;> rfl

/-- The aggregator always advances the watermark to the processed
timestamp. -/
theorem aggregate_core_wm (ts t : String) (fps lat cpu mem : ℚ) (dets : List JVal)
    (s : DashState) :
    (aggregate_core ts t fps lat cpu mem dets s).last_payload_timestamp_processed
      = some ts := by
  simp only [aggregate_core]
  split <;> rfl

/-- The payload-level aggregator never touches the cached frame. -/
theorem aggregate_payload_cached (fbk : String) (p : JVal) (ts : String) (s : DashState) :
    (aggregate_payload fbk p ts s).cached_annotated_jpeg = s.cached_annotated_jpeg := by
  simp only [aggregate_payload]
  exact aggregate_core_cached _ _ _ _ _ _ _ _

/-- The payload-level aggregator never touches the frame-validity flag. -/
theorem aggregate_payload_ok (fbk : String) (p : JVal) (ts : String) (s : DashState) :
    (aggregate_payload fbk p ts s).cached_last_frame_ok = s.cached_last_frame_ok := by
  simp only [aggregate_payload]
  exact aggregate_core_ok _ _ _ _ _ _ _ _

/-- The payload-level aggregator advances the watermark to the processed
timestamp. -/
theorem aggregate_payload_wm (fbk : String) (p : JVal) (ts : String) (s : DashState) :
    (aggregate_payload fbk p ts s).last_payload_timestamp_processed = some ts := by
  simp only [aggregate_payload]
  exact aggregate_core_wm _ _ _ _ _ _ _ _

/-- A successful member lookup certifies the value is a dict. -/
theorem jGet_isObj {p : JVal} {k : String} {v : JVal} (h : jGet p k = some v) :
    p.isObj = true := by
  cases p <;> simp [jGet, JVal.isObj] at h ⊢

/-- The checked overlay step refines the total one: whenever no exception
escapes, it returns exactly `overlay_det_step`. -/
theorem overlay_det_step_checked_agrees (img img2 : PILImage) (det : JVal)
    (heq : overlay_det_step_checked img det = some img2) :
    img2 = overlay_det_step img det := by
  by_cases h1 : det.isObj = false
  · simp only [overlay_det_step_checked, if_pos h1] at heq
    simp only [overlay_det_step, if_pos h1]
    exact (Option.some.inj heq).symm
  · by_cases h2 : classIsPerson det = false
    · simp only [overlay_det_step_checked, if_neg h1, if_pos h2] at heq
      simp only [overlay_det_step, if_neg h1, if_pos h2]
      exact (Option.some.inj heq).symm
    · simp only [overlay_det_step_checked, if_neg h1, if_neg h2] at heq
      cases hb : coerce_bbox? (jGet det ("bbox")) with
      | none =>
        rw [hb] at heq
        simp only [overlay_det_step, if_neg h1, if_neg h2, hb]
        exact (Option.some.inj heq).symm
      | some tup =>
        rw [hb] at heq
        cases hl : labelInt? ((pyFloat? (jGetD det ("confidence") (.jnum 0))).getD 0) with
        | none =>
          rw [hl] at heq
          simp at heq
        | some n =>
          rw [hl] at heq
          exact (Option.some.inj heq).symm

/-- The checked drawing pass refines the total one over any detection
list. -/
theorem overlay_foldlM_agrees (dets : List JVal) :
    ∀ (img img2 : PILImage),
      dets.foldlM overlay_det_step_checked img = some img2 →
      img2 = dets.foldl overlay_det_step img := by
  induction dets with
  | nil =>
    intro img img2 heq
    simp only [List.foldlM_nil] at heq
    simp only [List.foldl_nil]
    exact (Option.some.inj heq).symm
  | cons d ds ih =>
    intro img img2 heq
    simp only [List.foldlM_cons] at heq
    cases hstep : overlay_det_step_checked img d with
    | none =>
      rw [hstep] at heq
      simp at heq
    | some i =>
      rw [hstep] at heq
      have heq2 : ds.foldlM overlay_det_step_checked i = some img2 := heq
      have hi : i = overlay_det_step img d :=
        overlay_det_step_checked_agrees img i d hstep
      subst hi
      simp only [List.foldl_cons]
      exact ih _ _ heq2

/-- The checked renderer refines the total model: whenever the source
returns (no exception escapes), the result is exactly
`overlay_detections`. -/
theorem overlay_detections_checked_agrees (fb : List Nat) (p : JVal) (r : List Nat)
    (heq : overlay_detections_checked fb p = some r) :
    r = overlay_detections fb p := by
  unfold overlay_detections_checked at heq
  unfold overlay_detections
  cases ho : pil_open? fb with
  | none =>
    simp only [ho] at heq ⊢
    exact (Option.some.inj heq).symm
  | some img =>
    simp only [ho] at heq ⊢
    cases hf : (detections_list p).foldlM overlay_det_step_checked img with
    | none =>
      rw [hf] at heq
      simp at heq
    | some img2 =>
      rw [hf] at heq
      have hr : pil_encode img2 = r := Option.some.inj heq
      have h2 := overlay_foldlM_agrees (detections_list p) img img2 hf
      rw [← hr, h2]
      rfl

/-- Running one and the same cycle input twice in a row is the same as
running it once: the frame fields are recomputed to identical values and
the watermark blocks re-aggregation. -/
theorem background_cycle_idem (inp : CycleInput) (s : DashState) :
    background_cycle inp (background_cycle inp s) = background_cycle inp s := by
  obtain ⟨nowUs, fbk, frame, payload⟩ := inp
  cases frame with
  | none => rfl
  | some fb =>
    cases payload with
    | none => rfl
    | some p =>
      by_cases hc : (p.isObj = false ∨ payload_is_stale nowUs p = true)
      · simp only [background_cycle, if_pos hc]
      · simp only [background_cycle, if_neg hc]
        cases hts : jGet p ("timestamp") with
        | none => rfl
        | some v =>
          cases v with
          | jnull => rfl
          | jbool b => rfl
          | jnum q => rfl
          | jarr l => rfl
          | jobj fs => rfl
          | jstr ts =>
            dsimp only
            by_cases hagg : (ts ≠ "" ∧ s.last_payload_timestamp_processed ≠ some ts)
            · rw [if_pos hagg]
              have hneg : ¬(ts ≠ "" ∧ (aggregate_payload fbk p ts
                  { s with cached_annotated_jpeg := overlay_detections fb p,
                           cached_last_frame_ok := true }).last_payload_timestamp_processed
                    ≠ some ts) := by
                simp [aggregate_payload_wm]
              rw [if_neg hneg]
              exact set_frame_eq _ _ _
                (aggregate_payload_cached fbk p ts _)
                (aggregate_payload_ok fbk p ts _)
            · rw [if_neg hagg, if_neg hagg]

/-! ## Claim theorems -/

/-- Claim C2 (confirmed): a well-formed payload whose timestamp field is a
non-empty string that does not parse as an ISO-8601 datetime is classified
as not stale, so with a readable frame the cycle takes the overlay branch
(`frame_valid = true`, cached frame = overlay output) and reaches the
aggregator (the watermark is advanced to that timestamp) rather than the
raw-frame branch. -/
theorem c2_unparseable_timestamp_is_fresh
    (p : JVal) (ts : String) (nowUs : Int) (s : DashState)
    (fb : List Nat) (fbk : String)
    (hts : jGet p ("timestamp") = some (.jstr ts))
    (hne : ts ≠ "")
    (hparse : parseIso? ts = none) :
    payload_is_stale nowUs p = false
    ∧ (background_cycle ⟨nowUs, fbk, some fb, some p⟩ s).cached_annotated_jpeg
        = overlay_detections fb p
    ∧ (background_cycle ⟨nowUs, fbk, some fb, some p⟩ s).cached_last_frame_ok = true
    ∧ (background_cycle ⟨nowUs, fbk, some fb, some p⟩ s).last_payload_timestamp_processed
        = some ts := by
  have hobj : p.isObj = true := jGet_isObj hts
  have hstale : payload_is_stale nowUs p = false := by
    simp [payload_is_stale, hts, hne, hparse]
  have hc : ¬(p.isObj = false ∨ payload_is_stale nowUs p = true) := by
    simp [hobj, hstale]
  have hred : background_cycle ⟨nowUs, fbk, some fb, some p⟩ s
      = (if ts ≠ "" ∧ s.last_payload_timestamp_processed ≠ some ts
         then aggregate_payload fbk p ts
           { s with cached_annotated_jpeg := overlay_detections fb p,
                    cached_last_frame_ok := true }
         else { s with cached_annotated_jpeg := overlay_detections fb p,
                       cached_last_frame_ok := true }) := by
    simp only [background_cycle, if_neg hc, hts]
  refine ⟨hstale, ?_, ?_, ?_⟩ <;> rw [hred] <;>
    by_cases hagg : (ts ≠ "" ∧ s.last_payload_timestamp_processed ≠ some ts)
  · rw [if_pos hagg, aggregate_payload_cached]
  · rw [if_neg hagg]
  · rw [if_pos hagg, aggregate_payload_ok]
  · rw [if_neg hagg]
  · rw [if_pos hagg, aggregate_payload_wm]
  · rw [if_neg hagg]
    have hwm : s.last_payload_timestamp_processed = some ts := by
      rcases not_and_or.mp hagg with h | h
      · exact absurd hne h
      · exact not_not.mp h
    exact hwm

/-- Claim C2 witness: the concrete payload with timestamp `"not-a-date"`
is fresh and takes the overlay-and-aggregate path. -/
theorem c2_unparseable_timestamp_is_fresh_witness :
    payload_is_stale 0 pUnparseable = false
    ∧ (background_cycle ⟨0, "", some jpeg0, some pUnparseable⟩ state0).cached_annotated_jpeg
        = overlay_detections jpeg0 pUnparseable
    ∧ (background_cycle ⟨0, "", some jpeg0, some pUnparseable⟩ state0).cached_last_frame_ok
        = true
    ∧ (background_cycle ⟨0, "", some jpeg0, some pUnparseable⟩ state0).last_payload_timestamp_processed
        = some "not-a-date" :=
  c2_unparseable_timestamp_is_fresh pUnparseable "not-a-date" 0 state0 jpeg0 ""
    rfl (by decide) (by decide)

/-- Claim C3 counterexample: the cached annotated frame is NOT always a
non-empty byte value — it is the empty byte string at module start, and a
cycle that reads a zero-byte frame resource with no payload stores the
empty byte string in the cache. -/
theorem c3_empty_cache_counterexample :
    module_state0.cached_annotated_jpeg = []
    ∧ (background_cycle ⟨0, "", some [], none⟩ state0).cached_annotated_jpeg = [] := by
  decide

/-- Claim C3 as amended (proved): although the cache itself can hold an
empty byte value, the stream endpoint substitutes the placeholder for an
empty cache (`cached_annotated_jpeg or _generate_no_signal_frame()`), so
no stream reader ever observes an empty frame. -/
theorem c3_stream_never_serves_empty (s : DashState) : video_feed_frame s ≠ [] := by
  unfold video_feed_frame
  by_cases h : s.cached_annotated_jpeg = []
  · rw [if_pos h]
    decide
  · rw [if_neg h]
    exact h

/-- Claim C4 (code bug): `_overlay_detections` CAN raise to its caller,
contrary to both the claim and the spec's stated contract.  At this
failing input — a decodable frame and a person detection with a valid
bbox whose confidence is the finite double `2^1020` — every guarded step
passes (dict check, person class, coercible 4-bbox, and
`float(confidence)` succeeds), yet `conf_f * 100` overflows the double
range, so `int(conf_f * 100)` at source line 227 raises an uncaught
OverflowError: the checked renderer yields an escaped exception
(`none`) instead of falling back to the original frame. -/
theorem c4_overlay_label_overflow_raises :
    detInf.isObj = true
    ∧ classIsPerson detInf = true
    ∧ coerce_bbox? (jGet detInf ("bbox")) = some (10, 20, 30, 40)
    ∧ pyFloat? (jGetD detInf ("confidence") (.jnum 0))
        = some (mkRat ((2 ^ 1020 : Nat) : Int) 1)
    ∧ overlay_detections_checked jpeg0 payloadInf = none := by
  refine ⟨by decide, by decide, by decide, by decide, by decide⟩

/-- Claim C5 (confirmed): when the frame resource cannot be read, the
cycle stores the placeholder and clears `frame_valid`, and every piece of
aggregate state — totals, logs, latency window, performance history,
watermark, fps and the durable log — is left unchanged, for every payload
(including a fresh, never-seen one). -/
theorem c5_no_frame_placeholder_aggregates_untouched
    (nowUs : Int) (fbk : String) (pl : Option JVal) (s : DashState) :
    (background_cycle ⟨nowUs, fbk, none, pl⟩ s).cached_annotated_jpeg = no_signal_frame
    ∧ (background_cycle ⟨nowUs, fbk, none, pl⟩ s).cached_last_frame_ok = false
    ∧ (background_cycle ⟨nowUs, fbk, none, pl⟩ s).total_detections = s.total_detections
    ∧ (background_cycle ⟨nowUs, fbk, none, pl⟩ s).recent_logs = s.recent_logs
    ∧ (background_cycle ⟨nowUs, fbk, none, pl⟩ s).latency_window = s.latency_window
    ∧ (background_cycle ⟨nowUs, fbk, none, pl⟩ s).performance_history = s.performance_history
    ∧ (background_cycle ⟨nowUs, fbk, none, pl⟩ s).last_payload_timestamp_processed
        = s.last_payload_timestamp_processed
    ∧ (background_cycle ⟨nowUs, fbk, none, pl⟩ s).last_fps = s.last_fps
    ∧ (background_cycle ⟨nowUs, fbk, none, pl⟩ s).csv_log = s.csv_log :=
  ⟨rfl, rfl, rfl, rfl, rfl, rfl, rfl, rfl, rfl⟩

/-- Claim C1 counterexample: uniqueness of aggregation "regardless of how
payloads repeat or are reordered across cycles" fails.  The watermark is
only the immediately preceding timestamp, so the cycle order
`tsA, tsB, tsA` aggregates the unique timestamp `tsA` twice: its single
detection is counted twice and its latency value is pushed twice. -/
theorem c1_reorder_counterexample :
    (run [inpA]).total_detections = 1
    ∧ (run [inpA, inpB]).total_detections = 1
    ∧ (background_cycle inpA (run [inpA, inpB])).total_detections = 2
    ∧ (background_cycle inpA (run [inpA, inpB])).latency_window = [5, 7, 5] := by
  refine ⟨by decide, by decide, by decide, by decide⟩

/-- Claim C1 as amended (proved): dedup is consecutive, not global.
Repeating one and the same cycle input any number of further consecutive
times changes nothing after the first occurrence; and any cycle whose
payload timestamp equals the current watermark leaves every aggregate
(total, logs, latency window, performance history, durable log)
unchanged. -/
theorem c1_consecutive_dedup (inp : CycleInput) (s : DashState) (n : Nat)
    (p : JVal) (ts : String) :
    ((List.replicate n inp).foldl (fun t i => background_cycle i t) (background_cycle inp s)
        = background_cycle inp s)
    ∧ (inp.payload = some p →
        jGet p ("timestamp") = some (.jstr ts) →
        s.last_payload_timestamp_processed = some ts →
        ((background_cycle inp s).total_detections = s.total_detections
          ∧ (background_cycle inp s).recent_logs = s.recent_logs
          ∧ (background_cycle inp s).latency_window = s.latency_window
          ∧ (background_cycle inp s).performance_history = s.performance_history
          ∧ (background_cycle inp s).csv_log = s.csv_log)) := by
  constructor
  · induction n with
    | zero => rfl
    | succ k ih =>
      simp only [List.replicate_succ, List.foldl_cons]
      rw [background_cycle_idem]
      exact ih
  · intro hp hts hwm
    obtain ⟨nowUs, fbk, frame, pl⟩ := inp
    cases frame with
    | none => exact ⟨rfl, rfl, rfl, rfl, rfl⟩
    | some fb =>
      cases pl with
      | none => simp at hp
      | some p2 =>
        have hp2 : p2 = p := by
          simpa using hp
        subst hp2
        by_cases hc : (p2.isObj = false ∨ payload_is_stale nowUs p2 = true)
        · simp only [background_cycle, if_pos hc]
          exact ⟨trivial, trivial, trivial, trivial, trivial⟩
        · simp only [background_cycle, if_neg hc, hts]
          have hneg : ¬(ts ≠ "" ∧ ({ s with
              cached_annotated_jpeg := overlay_detections fb p2,
              cached_last_frame_ok := true }).last_payload_timestamp_processed
                ≠ some ts) := by
            simp [hwm]
          rw [if_neg hneg]
          exact ⟨rfl, rfl, rfl, rfl, rfl⟩

/-- Claim C1 witness: after aggregating `tsA`, two further consecutive
repeats of the same cycle change nothing, and a cycle whose timestamp
equals the watermark leaves every aggregate unchanged. -/
theorem c1_consecutive_dedup_witness :
    ((List.replicate 2 inpA).foldl (fun t i => background_cycle i t)
        (background_cycle inpA (run [inpA])) = background_cycle inpA (run [inpA]))
    ∧ ((background_cycle inpA (run [inpA])).total_detections = (run [inpA]).total_detections
      ∧ (background_cycle inpA (run [inpA])).recent_logs = (run [inpA]).recent_logs
      ∧ (background_cycle inpA (run [inpA])).latency_window = (run [inpA]).latency_window
      ∧ (background_cycle inpA (run [inpA])).performance_history
          = (run [inpA]).performance_history
      ∧ (background_cycle inpA (run [inpA])).csv_log = (run [inpA]).csv_log) := by
  have h := c1_consecutive_dedup inpA (run [inpA]) 2 payloadA "tsA"
  exact ⟨h.1, h.2 rfl rfl (by decide)⟩

/-- Claim C6 (confirmed): from the initial state, one fresh cycle with the
specification's scenario payload yields `total_detections = 1`, the single
newest log entry `{time: "10:00:00", class: "person", confidence: 0.87,
inference_time: 42.0}`, `latency_window = [42.0]` and exactly one durable
row rendering to
`2024-01-01T10:00:00+00:00,person,0.87,10,20,30,40,42.0,23.8,12.0,55.0`;
repeating the identical cycle leaves the entire state unchanged.
Rationals stand for the Python floats: `mkRat 87 100 = 0.87`,
`mkRat 238 10 = 23.8`. -/
theorem c6_scenario_aggregates_once :
    (background_cycle inp6 state0).total_detections = 1
    ∧ (background_cycle inp6 state0).recent_logs
        = [⟨"10:00:00", "person", mkRat 87 100, 42⟩]
    ∧ (background_cycle inp6 state0).latency_window = [42]
    ∧ (background_cycle inp6 state0).csv_log
        = [⟨"2024-01-01T10:00:00+00:00", "person", mkRat 87 100,
            10, 20, 30, 40, 42, mkRat 238 10, 12, 55⟩]
    ∧ csvRowToString ⟨"2024-01-01T10:00:00+00:00", "person", mkRat 87 100,
            10, 20, 30, 40, 42, mkRat 238 10, 12, 55⟩
        = "2024-01-01T10:00:00+00:00,person,0.87,10,20,30,40,42.0,23.8,12.0,55.0"
    ∧ background_cycle inp6 (background_cycle inp6 state0) = background_cycle inp6 state0 := by
  refine ⟨by decide, by decide, by decide, by decide, by decide, by decide⟩

/-- Claim C7 counterexample: the header row the code writes does not have
the claimed columns `...,x,y,w,h,...` — it names them
`...,x,y,width,height,...` (source line 101). -/
theorem c7_header_columns_counterexample :
    ensure_csv_header none
      ≠ "timestamp,class,confidence,x,y,w,h,latency_ms,fps,cpu_percent,memory_percent
"
    ∧ ensure_csv_header none = csv_header ++ "
" := by
  refine ⟨by decide, by decide⟩

/-- Claim C7 as amended (proved): if the durable store is absent or has
size zero, its content becomes exactly one header row (with columns
`timestamp,class,confidence,x,y,width,height,latency_ms,fps,cpu_percent,
memory_percent`); if it already exists and is non-empty, its content is
unchanged and no header is written. -/
theorem c7_header_written_once (st : Option String) :
    ((st = none ∨ st = some "") → ensure_csv_header st = csv_header ++ "
")
    ∧ (∀ c, st = some c → c ≠ "" → ensure_csv_header st = c) := by
  constructor
  · rintro (rfl | rfl)
    · rfl
    · rfl
  · rintro c rfl hc
    simp [ensure_csv_header, hc]

/-- Claim C7 witness: an absent store receives the header; a non-empty
store is untouched. -/
theorem c7_header_written_once_witness :
    ensure_csv_header none = csv_header ++ "
"
    ∧ ensure_csv_header (some ("2021,person")) = "2021,person" := by
  constructor
  · exact (c7_header_written_once none).1 (Or.inl rfl)
  · exact (c7_header_written_once (some ("2021,person"))).2 ("2021,person") rfl (by decide)

/-- Claim C8 (confirmed): in the aggregator, a person detection whose
bbox fails the 4-component numeric coercion is skipped (`none`), removing
it from a detection list changes nothing — so siblings still produce
their count, log entries and durable rows — and a qualifying detection
whose confidence fails `float(...)` is kept with the confidence defaulted
to `0.0` in both its log entry and its durable row. -/
theorem c8_detection_isolation (ts t : String) (lat fps cpu mem : ℚ)
    (l1 l2 : List JVal) (det : JVal) (s : DashState)
    (hobj : det.isObj = true) (hcls : classIsPerson det = true)
    (hbb : coerce_bbox? (jGet det ("bbox")) = none) :
    detection_row? ts t lat fps cpu mem det = none
    ∧ aggregate_core ts t fps lat cpu mem (l1 ++ det :: l2) s
        = aggregate_core ts t fps lat cpu mem (l1 ++ l2) s
    ∧ (∀ det2, det2.isObj = true → classIsPerson det2 = true →
        coerce_bbox? (jGet det2 ("bbox")) ≠ none →
        pyFloat? (jGetD det2 ("confidence") (.jnum 0)) = none →
        ∃ e r, detection_row? ts t lat fps cpu mem det2 = some (e, r)
          ∧ e.confidence = 0 ∧ r.confidence = 0) := by
  have h1 : detection_row? ts t lat fps cpu mem det = none := by
    simp [detection_row?, hobj, hcls, hbb]
  refine ⟨h1, ?_, ?_⟩
  · have hres : (l1 ++ det :: l2).filterMap (detection_row? ts t lat fps cpu mem)
        = (l1 ++ l2).filterMap (detection_row? ts t lat fps cpu mem) := by
      simp [List.filterMap_append, List.filterMap_cons, h1]
    simp only [aggregate_core, hres]
  · intro det2 h2o h2c h2b h2conf
    obtain ⟨tup, htup⟩ := Option.ne_none_iff_exists'.mp h2b
    obtain ⟨x, y, w, h⟩ := tup
    refine ⟨⟨t, "person", 0, lat⟩, ⟨ts, "person", 0, x, y, w, h, lat, fps, cpu, mem⟩, ?_, rfl, rfl⟩
    simp [detection_row?, h2o, h2c, htup, h2conf]

/-- Claim C8 witness: the 3-component bbox detection is skipped without
disturbing its qualifying sibling, and a `null` confidence is defaulted
to `0.0` rather than dropping the detection. -/
theorem c8_detection_isolation_witness :
    detection_row? ("T0") ("00:00:01") 1 2 3 4 badDet = none
    ∧ aggregate_core ("T0") ("00:00:01") 2 1 3 4 ([goodDetW] ++ badDet :: []) state0
        = aggregate_core ("T0") ("00:00:01") 2 1 3 4 ([goodDetW] ++ []) state0
    ∧ (∃ e r, detection_row? ("T0") ("00:00:01") 1 2 3 4 confDet = some (e, r)
        ∧ e.confidence = 0 ∧ r.confidence = 0) := by
  have h := c8_detection_isolation ("T0") ("00:00:01") 1 2 3 4 [goodDetW] [] badDet state0
    (by decide) (by decide) (by decide)
  exact ⟨h.1, h.2.1, h.2.2 confDet (by decide) (by decide) (by decide) (by decide)⟩

/-- Claim C9 (confirmed): for every cache state, the stats endpoint
reports `avg_inference_time` as the arithmetic mean of the latency window
rounded to two decimals, and reports `0.0` (never an error — the function
is total) when the window is empty. -/
theorem c9_avg_inference_time_mean (s : DashState) :
    (api_stats s).avg_inference_time = pyRound2 (spec_arith_mean s.latency_window)
    ∧ (s.latency_window = [] → (api_stats s).avg_inference_time = 0) := by
  constructor
  · rfl
  · intro h
    have hz : (api_stats s).avg_inference_time = pyRound2 0 := by
      simp [api_stats, h]
    rw [hz]
    decide

/-- Claim C9 witness: on the initial (empty-window) state the reported
average is `0`. -/
theorem c9_avg_inference_time_mean_witness :
    (api_stats state0).avg_inference_time = pyRound2 (spec_arith_mean state0.latency_window)
    ∧ (api_stats state0).avg_inference_time = 0 :=
  ⟨(c9_avg_inference_time_mean state0).1, (c9_avg_inference_time_mean state0).2 rfl⟩

/-- Claim C10 (confirmed): for every cache state, the detection-stats
endpoint returns a class-count map whose only key is `"person"`, mapped
to exactly the `total_detections` counter that the stats endpoint reports
as `detections_count`. -/
theorem c10_detection_stats_single_class (s : DashState) :
    api_detection_stats s = [("person", (api_stats s).detections_count)]
    ∧ (api_detection_stats s).map Prod.fst = ["person"] :=
  ⟨rfl, rfl⟩

end Adris

